import Mathlib

/-!
# MQTT destination worker (modules/mqtt/destination/mqtt-worker.c)

A shallow embedding of the worker's publish path, topic resolution, TLS option
builder and connect hook, followed by theorems about them.

Conventions of the embedding
* `gint`, `gboolean` and the library return codes are `Int`; `TRUE = 1`, `FALSE = 0`,
  and C truthiness is "different from 0".
* A `gchar *` is the list of bytes stored at the pointer, up to (not including) the
  terminator that `GString` keeps after its `len` bytes; a nullable pointer is an
  `Option` of that, `none` standing for `NULL`.
* `g_assert_not_reached ()` aborts the process (GLib built without
  `G_DISABLE_ASSERT`): a function that can reach it returns `Option`, `none`
  standing for the abort.
* The Paho client library is a black box: a record of functions over an arbitrary
  library state `σ`. Every worker function that calls into it returns the new
  library state together with the list of the library calls it made, in order.
* `msg_error` / `msg_debug` only write diagnostics and never influence control
  flow or results; they are left out.
-/

namespace MqttWorker

/-! ## Constants -/

/-- Outcome type of the threaded destination framework (logthrdestdrv.h), with the
values listed in the comment at the end of `_insert`. -/
inductive LogThreadedResult
  | LTR_DROP
  | LTR_ERROR
  | LTR_SUCCESS
  | LTR_QUEUED
  | LTR_NOT_CONNECTED
  | LTR_RETRY
  deriving DecidableEq, Repr

open LogThreadedResult

/-- Paho return code `MQTTCLIENT_SUCCESS` (MQTTClient.h). -/
def MQTTCLIENT_SUCCESS : Int := 0
/-- Paho return code `MQTTCLIENT_FAILURE`. -/
def MQTTCLIENT_FAILURE : Int := -1
/-- Paho return code `MQTTCLIENT_PERSISTENCE_ERROR`. -/
def MQTTCLIENT_PERSISTENCE_ERROR : Int := -2
/-- Paho return code `MQTTCLIENT_DISCONNECTED`. -/
def MQTTCLIENT_DISCONNECTED : Int := -3
/-- Paho return code `MQTTCLIENT_MAX_MESSAGES_INFLIGHT`. -/
def MQTTCLIENT_MAX_MESSAGES_INFLIGHT : Int := -4
/-- Paho return code `MQTTCLIENT_BAD_UTF8_STRING`. -/
def MQTTCLIENT_BAD_UTF8_STRING : Int := -5
/-- Paho return code `MQTTCLIENT_NULL_PARAMETER`. -/
def MQTTCLIENT_NULL_PARAMETER : Int := -6
/-- Paho return code `MQTTCLIENT_BAD_STRUCTURE`. -/
def MQTTCLIENT_BAD_STRUCTURE : Int := -8
/-- Paho return code `MQTTCLIENT_BAD_QOS`. -/
def MQTTCLIENT_BAD_QOS : Int := -9

/-- The constant `PUBLISH_TIMEOUT` (10000L), in milliseconds. -/
def PUBLISH_TIMEOUT : Int := 10000
/-- The constant `DISCONNECT_TIMEOUT` (10000), in milliseconds. -/
def DISCONNECT_TIMEOUT : Int := 10000

/-- GLib `TRUE`. -/
def TRUE : Int := 1
/-- GLib `FALSE`. -/
def FALSE : Int := 0

/-- The C operator `!` on an integer. -/
def lnot (x : Int) : Int := if x = 0 then 1 else 0

/-- GLib `g_assert_not_reached ()`: aborts; control never continues past it. -/
def g_assert_not_reached : Option Unit := none

/-! ## Result classifiers -/

/-- The tail of the `switch` in `_publish_result_evaluation`: the two labels
`MQTTCLIENT_NULL_PARAMETER` / `MQTTCLIENT_BAD_UTF8_STRING`, which are also where a
label placed above them would fall through to. -/
def publish_drop_block : Option LogThreadedResult := some LTR_DROP

/-- The function `_publish_result_evaluation`: the `switch` over the publish return code. The
labels `PERSISTENCE_ERROR`, `BAD_QOS`, `BAD_STRUCTURE` and `default` have no
`return`: each runs `g_assert_not_reached ()` and would fall through to the labels
below it, in source order. -/
def _publish_result_evaluation (result : Int) : Option LogThreadedResult :=
  if result = MQTTCLIENT_SUCCESS then
    some LTR_SUCCESS
  else if result = MQTTCLIENT_DISCONNECTED then
    some LTR_NOT_CONNECTED
  else if result = MQTTCLIENT_MAX_MESSAGES_INFLIGHT then
    some LTR_ERROR
  else if result = MQTTCLIENT_FAILURE then
    some LTR_ERROR
  else if result = MQTTCLIENT_PERSISTENCE_ERROR then do
    g_assert_not_reached
    g_assert_not_reached
    g_assert_not_reached
    g_assert_not_reached
    publish_drop_block
  else if result = MQTTCLIENT_BAD_QOS then do
    g_assert_not_reached
    g_assert_not_reached
    g_assert_not_reached
    publish_drop_block
  else if result = MQTTCLIENT_BAD_STRUCTURE then do
    g_assert_not_reached
    g_assert_not_reached
    publish_drop_block
  else if result = MQTTCLIENT_NULL_PARAMETER ∨ result = MQTTCLIENT_BAD_UTF8_STRING then
    publish_drop_block
  else do
    g_assert_not_reached
    publish_drop_block

/-- The function `_wait_result_evaluation`: the `switch` over the return code of the
acknowledgement wait; `MQTTCLIENT_FAILURE` shares the `default` block. -/
def _wait_result_evaluation (result : Int) : LogThreadedResult :=
  if result = MQTTCLIENT_SUCCESS then
    LTR_SUCCESS
  else if result = MQTTCLIENT_DISCONNECTED then
    LTR_NOT_CONNECTED
  else if result = MQTTCLIENT_FAILURE then
    LTR_ERROR
  else
    LTR_ERROR

/-! ## Strings and buffers -/

/-- The bytes found at a `gchar *`, up to the terminator kept by the owning buffer.
A byte `0` inside the list is an embedded NUL. -/
abbrev CStr := List Nat

/-- GLib `GString`: `len` bytes at `str` (followed by a terminating NUL); `len` is
the length of the list. -/
structure GString where
  str : CStr
  deriving DecidableEq, Repr

/-- The field `len` of a `GString`. -/
def GString.len (s : GString) : Nat := s.str.length

/-- C `strlen`: the number of bytes before the first NUL. -/
def strlen (s : CStr) : Nat := (s.takeWhile (fun b => b != 0)).length

/-- The conversion `(int) n` of a `size_t` to a 32-bit `int` (two-complement wrap). -/
def int_of_size_t (n : Nat) : Int :=
  if n % 2 ^ 32 < 2 ^ 31 then ((n % 2 ^ 32 : Nat) : Int) else ((n % 2 ^ 32 : Nat) : Int) - 2 ^ 32

/-- The bytes of an ASCII literal. -/
def ascii (s : String) : CStr := s.toList.map Char.toNat

/-! ## Library structures (MQTTClient.h) -/

/-- Paho `MQTTClient_message`: the fields the worker writes, and `dup` / `msgid`
which it leaves as initialised. -/
structure MQTTClient_message where
  payloadlen : Int
  payload : Option CStr
  qos : Int
  retained : Int
  dup : Int
  msgid : Int
  deriving DecidableEq, Repr

/-- The function registered as TLS error callback. -/
inductive SslErrorCallback
  | _log_ssl_errors
  deriving DecidableEq, Repr

/-- Paho `MQTTClient_SSLOptions`: the fields the worker writes, and
`privateKeyPassword` which it leaves as initialised. `ssl_error_context` holds the
address of the worker. -/
structure MQTTClient_SSLOptions where
  trustStore : Option CStr
  keyStore : Option CStr
  privateKey : Option CStr
  privateKeyPassword : Option CStr
  enabledCipherSuites : Option CStr
  enableServerCertAuth : Int
  sslVersion : Int
  verify : Int
  CApath : Option CStr
  ssl_error_cb : Option SslErrorCallback
  ssl_error_context : Option Nat
  disableDefaultTrustStore : Int
  deriving DecidableEq, Repr

/-- Paho `MQTTClient_connectOptions`: the fields the worker writes, and `reliable`,
`connectTimeout`, `retryInterval` which it leaves as initialised. `ssl` points to
the TLS options. -/
structure MQTTClient_connectOptions where
  keepAliveInterval : Int
  cleansession : Int
  reliable : Int
  username : Option CStr
  password : Option CStr
  connectTimeout : Int
  retryInterval : Int
  ssl : Option MQTTClient_SSLOptions
  httpProxy : Option CStr
  httpsProxy : Option CStr
  deriving DecidableEq, Repr

/-- One call into the Paho library, with its arguments. -/
inductive PahoCall
  | publishMessage (client : Nat) (topic : Option CStr) (msg : MQTTClient_message)
  | waitForCompletion (client : Nat) (token : Int) (timeout : Int)
  | connect (client : Nat) (options : MQTTClient_connectOptions)
  deriving DecidableEq, Repr

/-- The Paho client library as a black box over a library state `σ`: the three
struct initialisers and the three calls the worker makes. `MQTTClient_publishMessage`
returns the new state, the return code and the content of the caller's `token`
variable after the call. -/
structure Paho (σ : Type) where
  MQTTClient_message_initializer : MQTTClient_message
  MQTTClient_SSLOptions_initializer : MQTTClient_SSLOptions
  MQTTClient_connectOptions_initializer : MQTTClient_connectOptions
  MQTTClient_publishMessage : σ → Nat → Option CStr → MQTTClient_message → σ × Int × Int
  MQTTClient_waitForCompletion : σ → Nat → Int → Int → σ × Int
  MQTTClient_connect : σ → Nat → MQTTClient_connectOptions → σ × Int

/-- What a worker function leaves behind: the library state, the library calls it
made (in order) and its return value. -/
structure Run (σ α : Type) where
  lib : σ
  calls : List PahoCall
  ret : α

/-! ## Driver and worker -/

/-- Time zone selector of template evaluation (lib/template). -/
inductive LogTimeZone
  | LTZ_LOCAL
  | LTZ_SEND
  deriving DecidableEq, Repr

/-- The structure `LogTemplateEvalOptions`: `{opts, tz, seq_num, context_id}`. -/
structure LogTemplateEvalOptions (LogTemplateOptions : Type) where
  opts : LogTemplateOptions
  tz : LogTimeZone
  seq_num : Int
  context_id : Option CStr

/-- The fields of `MQTTDestinationDriver` (mqtt-destination.h) read by the worker. -/
structure MQTTDestinationDriver (LogTemplate LogTemplateOptions : Type) where
  template_options : LogTemplateOptions
  topic_name : LogTemplate
  fallback_topic_name : Option CStr
  message : LogTemplate
  qos : Int
  keepalive : Int
  username : Option CStr
  password : Option CStr
  http_proxy : Option CStr
  ca_file : Option CStr
  ca_dir : Option CStr
  cert_file : Option CStr
  key_file : Option CStr
  ciphers : Option CStr
  ssl_version : Int
  peer_verify : Int
  use_system_cert_store : Int

/-- The structure `MQTTDestinationWorker`: `addr` is the address of the object (the
value of the C pointer `self`), `seq_num` is `super.seq_num`, `owner` the shared
driver configuration, `client` the library handle. -/
structure MQTTDestinationWorker (LogTemplate LogTemplateOptions : Type) where
  addr : Nat
  owner : MQTTDestinationDriver LogTemplate LogTemplateOptions
  seq_num : Int
  client : Nat
  string_to_write : GString
  topic_name_buffer : GString

/-- The two helpers of the repository the worker calls that live outside this file:
`log_template_format (template, msg, options, result)` writes into the buffer
`result` and is given as the function from the old buffer to the new one;
`mqtt_dd_validate_topic_name (name, &error)` is given by its boolean result. -/
structure Helpers (LogTemplate LogTemplateOptions LogMessage : Type) where
  log_template_format :
    LogTemplate → LogMessage → LogTemplateEvalOptions LogTemplateOptions → GString → GString
  mqtt_dd_validate_topic_name : CStr → Bool

/-- Modelled from the spec: `log_template_format` (lib/template) is not part of the
sources at hand. The spec treats rendering as a function
`render(template, record, options) -> string` and says the buffer "is fully
overwritten, not appended": the result buffer becomes the rendering, whatever it
held. -/
def log_template_format {LogTemplate LogTemplateOptions LogMessage : Type}
    (render : LogTemplate → LogMessage → LogTemplateEvalOptions LogTemplateOptions → CStr)
    (template : LogTemplate) (msg : LogMessage)
    (options : LogTemplateEvalOptions LogTemplateOptions) (_result : GString) : GString :=
  { str := render template msg options }

/-- Modelled from the spec: `mqtt_dd_validate_topic_name` (mqtt-destination.c) is not
part of the sources at hand. The spec lists the rules "non-empty, no prohibited
wildcard characters for a publish topic, length within protocol limits"; the
wildcards of the protocol are `+` (43) and `#` (35) and the limit is 65535 bytes. -/
def mqtt_dd_validate_topic_name (name : CStr) : Bool :=
  let len := strlen name
  if len = 0 then false
  else if (name.takeWhile (fun b => b != 0)).any (fun b => b == 35 || b == 43) then false
  else if len > 65535 then false
  else true

section Worker

variable {LogTemplate LogTemplateOptions LogMessage σ : Type}

/-- The function `mqtt_dest_worker_resolve_template_topic_name`: renders the topic
template into `topic_name_buffer` and returns the buffer's string when it validates,
the driver's `fallback_topic_name` otherwise. Returns the worker (with the buffer
written) and the returned pointer. -/
def mqtt_dest_worker_resolve_template_topic_name
    (H : Helpers LogTemplate LogTemplateOptions LogMessage)
    (self : MQTTDestinationWorker LogTemplate LogTemplateOptions) (msg : LogMessage) :
    MQTTDestinationWorker LogTemplate LogTemplateOptions × Option CStr :=
  let owner := self.owner
  let options : LogTemplateEvalOptions LogTemplateOptions :=
    ⟨owner.template_options, LogTimeZone.LTZ_SEND, self.seq_num, none⟩
  let self := { self with
    topic_name_buffer := H.log_template_format owner.topic_name msg options self.topic_name_buffer }
  if H.mqtt_dd_validate_topic_name self.topic_name_buffer.str then
    (self, some self.topic_name_buffer.str)
  else
    (self, owner.fallback_topic_name)

/-- The function `_mqtt_send`: builds the message, publishes it, classifies the
return code and, only when that classification is `LTR_SUCCESS`, waits for the
acknowledgement and classifies that. `ret = none` is the abort of
`g_assert_not_reached`. -/
def _mqtt_send (P : Paho σ) (lib : σ)
    (self : MQTTDestinationWorker LogTemplate LogTemplateOptions)
    (msg : CStr) (topic : Option CStr) : Run σ (Option LogThreadedResult) :=
  let owner := self.owner
  let pubmsg := P.MQTTClient_message_initializer
  let pubmsg := { pubmsg with payload := some msg }
  let pubmsg := { pubmsg with payloadlen := int_of_size_t (strlen msg) }
  let pubmsg := { pubmsg with qos := owner.qos }
  let pubmsg := { pubmsg with retained := 0 }
  let r := P.MQTTClient_publishMessage lib self.client topic pubmsg
  let lib := r.1
  let rc := r.2.1
  let token := r.2.2
  let calls := [PahoCall.publishMessage self.client topic pubmsg]
  match _publish_result_evaluation rc with
  | none => ⟨lib, calls, none⟩
  | some result =>
    if result ≠ LTR_SUCCESS then
      ⟨lib, calls, some result⟩
    else
      let w := P.MQTTClient_waitForCompletion lib self.client token PUBLISH_TIMEOUT
      let lib := w.1
      let rc := w.2
      let calls := calls ++ [PahoCall.waitForCompletion self.client token PUBLISH_TIMEOUT]
      let result := _wait_result_evaluation rc
      ⟨lib, calls, some result⟩

/-- The function `_format_message`: renders the message template into
`string_to_write`. -/
def _format_message (H : Helpers LogTemplate LogTemplateOptions LogMessage)
    (self : MQTTDestinationWorker LogTemplate LogTemplateOptions) (msg : LogMessage) :
    MQTTDestinationWorker LogTemplate LogTemplateOptions :=
  let owner := self.owner
  let options : LogTemplateEvalOptions LogTemplateOptions :=
    ⟨owner.template_options, LogTimeZone.LTZ_SEND, self.seq_num, none⟩
  { self with
    string_to_write := H.log_template_format owner.message msg options self.string_to_write }

/-- The function `_insert`: formats the body, resolves the topic and sends. Returns
the worker (with both buffers written) and the run of `_mqtt_send`. -/
def _insert (H : Helpers LogTemplate LogTemplateOptions LogMessage) (P : Paho σ) (lib : σ)
    (self : MQTTDestinationWorker LogTemplate LogTemplateOptions) (msg : LogMessage) :
    MQTTDestinationWorker LogTemplate LogTemplateOptions × Run σ (Option LogThreadedResult) :=
  let self := _format_message H self msg
  let t := mqtt_dest_worker_resolve_template_topic_name H self msg
  let self := t.1
  (self, _mqtt_send P lib self self.string_to_write.str t.2)

/-- The function `_create_ssl_options`: the TLS options built from the driver
configuration. -/
def _create_ssl_options (P : Paho σ)
    (self : MQTTDestinationWorker LogTemplate LogTemplateOptions) : MQTTClient_SSLOptions :=
  let owner := self.owner
  let ssl_opts := P.MQTTClient_SSLOptions_initializer
  let ssl_opts := { ssl_opts with trustStore := owner.ca_file }
  let ssl_opts := { ssl_opts with CApath := owner.ca_dir }
  let ssl_opts := { ssl_opts with keyStore := owner.cert_file }
  let ssl_opts := { ssl_opts with privateKey := owner.key_file }
  let ssl_opts := { ssl_opts with enabledCipherSuites := owner.ciphers }
  let ssl_opts := { ssl_opts with sslVersion := owner.ssl_version }
  let ssl_opts := { ssl_opts with enableServerCertAuth := owner.peer_verify }
  let ssl_opts := { ssl_opts with verify := owner.peer_verify }
  let ssl_opts := { ssl_opts with disableDefaultTrustStore := lnot owner.use_system_cert_store }
  let ssl_opts := { ssl_opts with ssl_error_cb := some SslErrorCallback._log_ssl_errors }
  let ssl_opts := { ssl_opts with ssl_error_context := some self.addr }
  ssl_opts

/-- The function `_connect`: builds the connect options and issues the connect call;
`TRUE` when the library reports success, `FALSE` otherwise. `have_paho_http_proxy`
is the build-time switch `SYSLOG_NG_HAVE_PAHO_HTTP_PROXY`. -/
def _connect (have_paho_http_proxy : Bool) (P : Paho σ) (lib : σ)
    (self : MQTTDestinationWorker LogTemplate LogTemplateOptions) : Run σ Int :=
  let owner := self.owner
  let conn_opts := P.MQTTClient_connectOptions_initializer
  let conn_opts := { conn_opts with keepAliveInterval := owner.keepalive }
  let conn_opts := { conn_opts with cleansession := FALSE }
  let conn_opts := { conn_opts with username := owner.username }
  let conn_opts := { conn_opts with password := owner.password }
  let conn_opts :=
    if have_paho_http_proxy && owner.http_proxy.isSome then
      { conn_opts with httpProxy := owner.http_proxy, httpsProxy := owner.http_proxy }
    else conn_opts
  let ssl_opts := _create_ssl_options P self
  let conn_opts := { conn_opts with ssl := some ssl_opts }
  let r := P.MQTTClient_connect lib self.client conn_opts
  let rc := r.2
  if rc ≠ MQTTCLIENT_SUCCESS then
    ⟨r.1, [PahoCall.connect self.client conn_opts], FALSE⟩
  else
    ⟨r.1, [PahoCall.connect self.client conn_opts], TRUE⟩

end Worker

/-! ## Concrete instances used to evaluate the definitions -/

/-- A library that answers from a script: every publish returns code `p` and token
`token`, every wait returns `w`, every connect returns `c`. The initialisers carry
the values of the macros of MQTTClient.h. -/
def scripted (p token w c : Int) : Paho Unit where
  MQTTClient_message_initializer :=
    { payloadlen := 0, payload := none, qos := 0, retained := 0, dup := 0, msgid := 0 }
  MQTTClient_SSLOptions_initializer :=
    { trustStore := none, keyStore := none, privateKey := none, privateKeyPassword := none,
      enabledCipherSuites := none, enableServerCertAuth := 1, sslVersion := 0, verify := 0,
      CApath := none, ssl_error_cb := none, ssl_error_context := none,
      disableDefaultTrustStore := 0 }
  MQTTClient_connectOptions_initializer :=
    { keepAliveInterval := 60, cleansession := 1, reliable := 1, username := none,
      password := none, connectTimeout := 30, retryInterval := 0, ssl := none,
      httpProxy := none, httpsProxy := none }
  MQTTClient_publishMessage := fun _ _ _ _ => ((), p, token)
  MQTTClient_waitForCompletion := fun _ _ _ _ => ((), w)
  MQTTClient_connect := fun _ _ _ => ((), c)

/-- A rendering for the examples: a record is a list of fields and template `n`
renders to field `n` of the record (empty when the record has no such field). -/
def field_render (template : Nat) (record : List CStr)
    (_options : LogTemplateEvalOptions Unit) : CStr :=
  record.getD template []

/-- The helpers of the examples: rendering by `field_render`, topic validation by
`mqtt_dd_validate_topic_name`. -/
def example_helpers : Helpers Nat Unit (List CStr) where
  log_template_format := log_template_format field_render
  mqtt_dd_validate_topic_name := mqtt_dd_validate_topic_name

/-- A driver configuration for the examples: the topic is field 0 of the record, the
body field 1, the fallback topic is "fallback/topic", QoS 1. -/
def example_driver : MQTTDestinationDriver Nat Unit where
  template_options := ()
  topic_name := 0
  fallback_topic_name := some (ascii "fallback/topic")
  message := 1
  qos := 1
  keepalive := 60
  username := some (ascii "user")
  password := some (ascii "secret")
  http_proxy := none
  ca_file := some (ascii "/etc/ca.pem")
  ca_dir := none
  cert_file := none
  key_file := none
  ciphers := none
  ssl_version := 3
  peer_verify := 1
  use_system_cert_store := 0

/-- A worker of `example_driver` whose buffers still hold the content `body` and
`topic` of an earlier message. -/
def example_worker (body topic : CStr) : MQTTDestinationWorker Nat Unit where
  addr := 4096
  owner := example_driver
  seq_num := 7
  client := 1
  string_to_write := { str := body }
  topic_name_buffer := { str := topic }

/-! ## Statement helpers -/

/-- The message `_mqtt_send` hands to the library for the body `msg`: the
initialiser with `payload`, `payloadlen`, `qos` and `retained` assigned as in the
source. -/
def published_message {σ LogTemplate LogTemplateOptions : Type} (P : Paho σ)
    (self : MQTTDestinationWorker LogTemplate LogTemplateOptions) (msg : CStr) :
    MQTTClient_message :=
  { P.MQTTClient_message_initializer with
    payload := some msg
    payloadlen := int_of_size_t (strlen msg)
    qos := self.owner.qos
    retained := 0 }

/-- Whether a library call is a publish. -/
def PahoCall.isPublish : PahoCall → Bool
  | .publishMessage _ _ _ => true
  | _ => false

/-- Whether a library call is an acknowledgement wait. -/
def PahoCall.isWait : PahoCall → Bool
  | .waitForCompletion _ _ _ => true
  | _ => false

/-- The options `_connect` hands to the library: the initialiser with the keep-alive
interval, `cleansession`, the credentials, the proxy (when compiled in and
configured) and the TLS options assigned as in the source. -/
def connect_options {σ LogTemplate LogTemplateOptions : Type} (have_paho_http_proxy : Bool)
    (P : Paho σ) (self : MQTTDestinationWorker LogTemplate LogTemplateOptions) :
    MQTTClient_connectOptions :=
  let base : MQTTClient_connectOptions :=
    { P.MQTTClient_connectOptions_initializer with
      keepAliveInterval := self.owner.keepalive
      cleansession := FALSE
      username := self.owner.username
      password := self.owner.password }
  let proxied : MQTTClient_connectOptions :=
    if have_paho_http_proxy && self.owner.http_proxy.isSome then
      { base with httpProxy := self.owner.http_proxy, httpsProxy := self.owner.http_proxy }
    else base
  { proxied with ssl := some (_create_ssl_options P self) }

section Statements

variable {LogTemplate LogTemplateOptions LogMessage σ : Type}

/-- The evaluation options both renderings of a worker use:
`{&owner->template_options, LTZ_SEND, self->super.seq_num, NULL}`. -/
def eval_options {LogTemplate LogTemplateOptions : Type}
    (self : MQTTDestinationWorker LogTemplate LogTemplateOptions) :
    LogTemplateEvalOptions LogTemplateOptions :=
  ⟨self.owner.template_options, LogTimeZone.LTZ_SEND, self.seq_num, none⟩

/-! ## The classifiers -/

/-- C1: the publish-time classifier maps each documented code to the tabled outcome:
success to `LTR_SUCCESS`, disconnected to `LTR_NOT_CONNECTED`, max-messages-in-flight
and generic failure to `LTR_ERROR`, null-parameter and bad-utf8-string to
`LTR_DROP`. -/
theorem publish_result_evaluation_table :
    _publish_result_evaluation MQTTCLIENT_SUCCESS = some LTR_SUCCESS ∧
    _publish_result_evaluation MQTTCLIENT_DISCONNECTED = some LTR_NOT_CONNECTED ∧
    _publish_result_evaluation MQTTCLIENT_MAX_MESSAGES_INFLIGHT = some LTR_ERROR ∧
    _publish_result_evaluation MQTTCLIENT_FAILURE = some LTR_ERROR ∧
    _publish_result_evaluation MQTTCLIENT_NULL_PARAMETER = some LTR_DROP ∧
    _publish_result_evaluation MQTTCLIENT_BAD_UTF8_STRING = some LTR_DROP := by
  decide

/-- C2: the wait-time classifier returns an outcome for every integer code (it has
no abort branch): `LTR_SUCCESS` exactly for the success code, `LTR_NOT_CONNECTED`
exactly for the disconnected code, `LTR_ERROR` for generic failure and for every
other code, and never `LTR_DROP`. -/
theorem wait_result_evaluation_total (rc : Int) :
    (_wait_result_evaluation rc = LTR_SUCCESS ↔ rc = MQTTCLIENT_SUCCESS) ∧
    (_wait_result_evaluation rc = LTR_NOT_CONNECTED ↔ rc = MQTTCLIENT_DISCONNECTED) ∧
    (_wait_result_evaluation rc = LTR_ERROR ↔
      (rc ≠ MQTTCLIENT_SUCCESS ∧ rc ≠ MQTTCLIENT_DISCONNECTED)) ∧
    _wait_result_evaluation MQTTCLIENT_FAILURE = LTR_ERROR ∧
    _wait_result_evaluation rc ≠ LTR_DROP ∧
    (_wait_result_evaluation rc = LTR_SUCCESS ∨ _wait_result_evaluation rc = LTR_NOT_CONNECTED ∨
      _wait_result_evaluation rc = LTR_ERROR) := by
  unfold _wait_result_evaluation MQTTCLIENT_SUCCESS MQTTCLIENT_DISCONNECTED MQTTCLIENT_FAILURE
  split_ifs <;> simp_all

/-- C5: the publish-time classifier aborts (returns no outcome) on persistence-error,
bad-qos, bad-structure and on every code that is not one of the six codes of the
table; so such a code is never classified as any outcome. -/
theorem publish_result_evaluation_aborts (rc : Int) :
    _publish_result_evaluation MQTTCLIENT_PERSISTENCE_ERROR = none ∧
    _publish_result_evaluation MQTTCLIENT_BAD_QOS = none ∧
    _publish_result_evaluation MQTTCLIENT_BAD_STRUCTURE = none ∧
    ((rc ≠ MQTTCLIENT_SUCCESS ∧ rc ≠ MQTTCLIENT_DISCONNECTED ∧
        rc ≠ MQTTCLIENT_MAX_MESSAGES_INFLIGHT ∧ rc ≠ MQTTCLIENT_FAILURE ∧
        rc ≠ MQTTCLIENT_NULL_PARAMETER ∧ rc ≠ MQTTCLIENT_BAD_UTF8_STRING) →
      _publish_result_evaluation rc = none ∧
      ∀ outcome : LogThreadedResult, _publish_result_evaluation rc ≠ some outcome) := by
  refine ⟨by decide, by decide, by decide, ?_⟩
  rintro ⟨h1, h2, h3, h4, h5, h6⟩
  have h : _publish_result_evaluation rc = none := by
    unfold _publish_result_evaluation
    split_ifs <;> simp_all [g_assert_not_reached, publish_drop_block]
  exact ⟨h, by simp [h]⟩

/-- Witness of C5 at the unlisted code -7 (topic name truncated). -/
theorem publish_result_evaluation_aborts_witness :
    _publish_result_evaluation (-7) = none ∧
    ∀ outcome : LogThreadedResult, _publish_result_evaluation (-7) ≠ some outcome :=
  (publish_result_evaluation_aborts (-7)).2.2.2 (by decide)

/-! ## Sending -/

/-- The library call `_mqtt_send` starts with, and its classification. -/
theorem mqtt_send_unfold (P : Paho σ) (lib : σ)
    (self : MQTTDestinationWorker LogTemplate LogTemplateOptions) (msg : CStr)
    (topic : Option CStr) :
    _mqtt_send P lib self msg topic =
      (let r := P.MQTTClient_publishMessage lib self.client topic (published_message P self msg)
       let first := PahoCall.publishMessage self.client topic (published_message P self msg)
       if _publish_result_evaluation r.2.1 = some LTR_SUCCESS then
         let w := P.MQTTClient_waitForCompletion r.1 self.client r.2.2 PUBLISH_TIMEOUT
         ⟨w.1, [first, PahoCall.waitForCompletion self.client r.2.2 PUBLISH_TIMEOUT],
           some (_wait_result_evaluation w.2)⟩
       else ⟨r.1, [first], _publish_result_evaluation r.2.1⟩) := by
  simp only [_mqtt_send, published_message]
  split
  · rename_i h
    simp [h]
  · rename_i result h
    by_cases hr : result = LTR_SUCCESS
    · subst hr
      simp [h]
    · simp [h, hr]

/-- C3: when the publish call returns the code `p` and the acknowledgement wait
(were it issued) returns `w`, the outcome of `_mqtt_send` is the publish-time
mapping of `p` whenever that mapping is not `LTR_SUCCESS` (an abort included), and
the wait-time mapping of `w` when the publish-time mapping of `p` is
`LTR_SUCCESS`. -/
theorem mqtt_send_outcome (P : Paho σ) (lib : σ)
    (self : MQTTDestinationWorker LogTemplate LogTemplateOptions) (msg : CStr)
    (topic : Option CStr) (p w : Int)
    (hp : (P.MQTTClient_publishMessage lib self.client topic
            (published_message P self msg)).2.1 = p)
    (hw : (P.MQTTClient_waitForCompletion
            (P.MQTTClient_publishMessage lib self.client topic (published_message P self msg)).1
            self.client
            (P.MQTTClient_publishMessage lib self.client topic (published_message P self msg)).2.2
            PUBLISH_TIMEOUT).2 = w) :
    (_publish_result_evaluation p ≠ some LTR_SUCCESS →
      (_mqtt_send P lib self msg topic).ret = _publish_result_evaluation p) ∧
    (_publish_result_evaluation p = some LTR_SUCCESS →
      (_mqtt_send P lib self msg topic).ret = some (_wait_result_evaluation w)) := by
  rw [mqtt_send_unfold]
  subst hp hw
  constructor
  · intro h
    simp [h]
  · intro h
    simp [h]

/-- Witness of C3: publish success then wait disconnected gives
`LTR_NOT_CONNECTED`; publish null-parameter gives `LTR_DROP`. -/
theorem mqtt_send_outcome_witness :
    (_mqtt_send (scripted 0 5 (-3) 0) () (example_worker [] []) (ascii "23.5")
        (some (ascii "sensors/temp"))).ret = some LTR_NOT_CONNECTED ∧
    (_mqtt_send (scripted (-6) 5 0 0) () (example_worker [] []) (ascii "23.5")
        (some (ascii "sensors/temp"))).ret = some LTR_DROP :=
  ⟨(mqtt_send_outcome (scripted 0 5 (-3) 0) () (example_worker [] []) (ascii "23.5")
      (some (ascii "sensors/temp")) 0 (-3) rfl rfl).2 (by decide),
   (mqtt_send_outcome (scripted (-6) 5 0 0) () (example_worker [] []) (ascii "23.5")
      (some (ascii "sensors/temp")) (-6) 0 rfl rfl).1 (by decide)⟩

/-- The resolver only writes the topic buffer. -/
theorem resolve_worker_eq (H : Helpers LogTemplate LogTemplateOptions LogMessage)
    (self : MQTTDestinationWorker LogTemplate LogTemplateOptions) (msg : LogMessage) :
    (mqtt_dest_worker_resolve_template_topic_name H self msg).1 =
      { self with
        topic_name_buffer :=
          H.log_template_format self.owner.topic_name msg (eval_options self)
            self.topic_name_buffer } := by
  simp only [mqtt_dest_worker_resolve_template_topic_name, eval_options]
  split <;> rfl

/-- The topic pointer returned by the resolver, by cases on the validation. -/
theorem resolve_topic_eq (H : Helpers LogTemplate LogTemplateOptions LogMessage)
    (self : MQTTDestinationWorker LogTemplate LogTemplateOptions) (msg : LogMessage) :
    (mqtt_dest_worker_resolve_template_topic_name H self msg).2 =
      if H.mqtt_dd_validate_topic_name
          (H.log_template_format self.owner.topic_name msg (eval_options self)
            self.topic_name_buffer).str = true
      then some (H.log_template_format self.owner.topic_name msg (eval_options self)
            self.topic_name_buffer).str
      else self.owner.fallback_topic_name := by
  simp only [mqtt_dest_worker_resolve_template_topic_name, eval_options]
  split <;> rfl

/-- Formatting the body first does not change what the resolver returns. -/
theorem resolve_topic_after_format (H : Helpers LogTemplate LogTemplateOptions LogMessage)
    (self : MQTTDestinationWorker LogTemplate LogTemplateOptions) (msg : LogMessage) :
    (mqtt_dest_worker_resolve_template_topic_name H (_format_message H self msg) msg).2 =
      (mqtt_dest_worker_resolve_template_topic_name H self msg).2 := by
  rw [resolve_topic_eq, resolve_topic_eq]
  rfl

/-- The worker `_insert` leaves behind: both buffers written, nothing else touched. -/
theorem insert_worker_eq (H : Helpers LogTemplate LogTemplateOptions LogMessage)
    (P : Paho σ) (lib : σ) (self : MQTTDestinationWorker LogTemplate LogTemplateOptions)
    (msg : LogMessage) :
    (_insert H P lib self msg).1 =
      { self with
        string_to_write :=
          H.log_template_format self.owner.message msg (eval_options self) self.string_to_write,
        topic_name_buffer :=
          H.log_template_format self.owner.topic_name msg (eval_options self)
            self.topic_name_buffer } := by
  simp only [_insert]
  rw [resolve_worker_eq]
  rfl

/-- The send `_insert` performs: the rendered body on the resolved topic. -/
theorem insert_run_eq (H : Helpers LogTemplate LogTemplateOptions LogMessage)
    (P : Paho σ) (lib : σ) (self : MQTTDestinationWorker LogTemplate LogTemplateOptions)
    (msg : LogMessage) :
    (_insert H P lib self msg).2 =
      _mqtt_send P lib self
        (H.log_template_format self.owner.message msg (eval_options self)
          self.string_to_write).str
        (mqtt_dest_worker_resolve_template_topic_name H self msg).2 := by
  simp only [_insert]
  rw [resolve_topic_after_format, resolve_worker_eq, mqtt_send_unfold, mqtt_send_unfold]
  rfl

/-- C4: an `_insert` call makes exactly one publish call, and after it one
acknowledgement wait (timeout 10000, keyed by the token the publish returned) if and
only if the publish return code classifies as `LTR_SUCCESS`; for every other publish
return code there is no wait, and there is never a second publish. -/
theorem insert_library_calls (H : Helpers LogTemplate LogTemplateOptions LogMessage)
    (P : Paho σ) (lib : σ) (self : MQTTDestinationWorker LogTemplate LogTemplateOptions)
    (msg : LogMessage) :
    let topic := (mqtt_dest_worker_resolve_template_topic_name H self msg).2
    let pubmsg := published_message P self (_insert H P lib self msg).1.string_to_write.str
    let r := P.MQTTClient_publishMessage lib self.client topic pubmsg
    let calls := (_insert H P lib self msg).2.calls
    calls = PahoCall.publishMessage self.client topic pubmsg ::
      (if _publish_result_evaluation r.2.1 = some LTR_SUCCESS
        then [PahoCall.waitForCompletion self.client r.2.2 10000] else []) ∧
    (calls.filter PahoCall.isPublish).length = 1 ∧
    (calls.filter PahoCall.isWait).length =
      (if _publish_result_evaluation r.2.1 = some LTR_SUCCESS then 1 else 0) ∧
    ((∃ c ∈ calls, c.isWait = true) ↔ _publish_result_evaluation r.2.1 = some LTR_SUCCESS) := by
  intro topic pubmsg r calls
  have hbody : (_insert H P lib self msg).1.string_to_write.str =
      (H.log_template_format self.owner.message msg (eval_options self)
        self.string_to_write).str := by
    rw [insert_worker_eq]
  have hcalls : calls = PahoCall.publishMessage self.client topic pubmsg ::
      (if _publish_result_evaluation r.2.1 = some LTR_SUCCESS
        then [PahoCall.waitForCompletion self.client r.2.2 10000] else []) := by
    simp only [calls, r, pubmsg, topic]
    rw [insert_run_eq, mqtt_send_unfold, hbody]
    simp only []
    split <;> rfl
  refine ⟨hcalls, ?_, ?_, ?_⟩
  · rw [hcalls]
    split <;> simp [PahoCall.isPublish]
  · rw [hcalls]
    split <;> simp [PahoCall.isWait]
  · rw [hcalls]
    split
    · rename_i hd
      simp [PahoCall.isWait, hd]
    · rename_i hd
      simp [PahoCall.isWait, hd]

/-- Witness of C4: a publish answered "disconnected" is the only library call of the
insert; a publish answered "success" is followed by one wait on its token. -/
theorem insert_library_calls_witness :
    ((_insert example_helpers (scripted (-3) 5 0 0) () (example_worker [] [])
        [ascii "t", ascii "b"]).2.calls.filter PahoCall.isWait).length = 0 ∧
    (_insert example_helpers (scripted 0 5 0 0) () (example_worker [] [])
        [ascii "t", ascii "b"]).2.calls =
      [PahoCall.publishMessage 1 (some (ascii "t"))
          { payloadlen := 1, payload := some (ascii "b"), qos := 1, retained := 0,
            dup := 0, msgid := 0 },
        PahoCall.waitForCompletion 1 5 10000] :=
  ⟨(insert_library_calls example_helpers (scripted (-3) 5 0 0) () (example_worker [] [])
      [ascii "t", ascii "b"]).2.2.1,
   (insert_library_calls example_helpers (scripted 0 5 0 0) () (example_worker [] [])
      [ascii "t", ascii "b"]).1⟩

/-- C6: the topic `_insert` hands to the publish call is the pointer returned by
`mqtt_dest_worker_resolve_template_topic_name`; it is exactly the rendered topic
string when the validation accepts that string, and the configured fallback topic
when the validation rejects it (so, the fallback being a topic the validation
accepts, never the rejected rendering). -/
theorem insert_topic (H : Helpers LogTemplate LogTemplateOptions LogMessage)
    (P : Paho σ) (lib : σ) (self : MQTTDestinationWorker LogTemplate LogTemplateOptions)
    (msg : LogMessage) :
    let rendered :=
      (H.log_template_format self.owner.topic_name msg (eval_options self)
        self.topic_name_buffer).str
    let topic := (mqtt_dest_worker_resolve_template_topic_name H self msg).2
    (∃ pubmsg rest, (_insert H P lib self msg).2.calls =
        PahoCall.publishMessage self.client topic pubmsg :: rest) ∧
    (H.mqtt_dd_validate_topic_name rendered = true → topic = some rendered) ∧
    (H.mqtt_dd_validate_topic_name rendered = false →
      topic = self.owner.fallback_topic_name ∧
      ∀ f, self.owner.fallback_topic_name = some f →
        H.mqtt_dd_validate_topic_name f = true → topic ≠ some rendered) := by
  intro rendered topic
  have ht := resolve_topic_eq H self msg
  refine ⟨?_, ?_, ?_⟩
  · have h : (_insert H P lib self msg).2.calls = _ := congrArg Run.calls
      (insert_run_eq H P lib self msg)
    rw [mqtt_send_unfold] at h
    simp only [] at h
    split at h
    · exact ⟨_, _, h⟩
    · exact ⟨_, _, h⟩
  · intro hv
    simp only [topic, rendered, ht, hv, if_true]
  · intro hv
    have hfb : topic = self.owner.fallback_topic_name := by
      simp only [topic, ht]
      rw [if_neg]
      simp only [rendered] at hv
      simp [hv]
    refine ⟨hfb, ?_⟩
    intro f hf hvf heq
    rw [hfb, hf] at heq
    have : f = rendered := Option.some.inj heq
    rw [this, hv] at hvf
    exact Bool.noConfusion hvf

/-- Witness of C6: a record rendering the topic "sensors/temp" is published to
"sensors/temp"; a record rendering "a/+/b" is published to the fallback
"fallback/topic". -/
theorem insert_topic_witness :
    (mqtt_dest_worker_resolve_template_topic_name example_helpers (example_worker [] [])
        [ascii "sensors/temp", ascii "23.5"]).2 = some (ascii "sensors/temp") ∧
    (mqtt_dest_worker_resolve_template_topic_name example_helpers (example_worker [] [])
        [ascii "a/+/b", ascii "23.5"]).2 = some (ascii "fallback/topic") :=
  ⟨(insert_topic example_helpers (scripted 0 5 0 0) () (example_worker [] [])
      [ascii "sensors/temp", ascii "23.5"]).2.1 (by decide),
   ((insert_topic example_helpers (scripted 0 5 0 0) () (example_worker [] [])
      [ascii "a/+/b", ascii "23.5"]).2.2 (by decide)).1⟩

/-! ## The wire message -/

/-- C8: with `log_template_format` overwriting its result buffer by the rendering,
after `_insert` of a record the body buffer is the rendering of the message template
on that record and the topic buffer the rendering of the topic template, whatever
the buffers held; so a second `_insert` on the worker left by a first one writes the
same buffers, makes the same library calls and returns the same outcome as on a
worker whose buffers hold anything else. -/
theorem insert_overwrites_buffers
    (render : LogTemplate → LogMessage → LogTemplateEvalOptions LogTemplateOptions → CStr)
    (validate : CStr → Bool) (P : Paho σ) (lib1 lib2 : σ)
    (self : MQTTDestinationWorker LogTemplate LogTemplateOptions) (r1 r2 : LogMessage)
    (body topic : GString) :
    let H : Helpers LogTemplate LogTemplateOptions LogMessage :=
      ⟨log_template_format render, validate⟩
    let first := _insert H P lib1 self r1
    let second := _insert H P lib2 first.1 r2
    first.1.string_to_write.str = render self.owner.message r1 (eval_options self) ∧
    first.1.topic_name_buffer.str = render self.owner.topic_name r1 (eval_options self) ∧
    second.1.string_to_write.str = render self.owner.message r2 (eval_options self) ∧
    second.1.topic_name_buffer.str = render self.owner.topic_name r2 (eval_options self) ∧
    second.1 = (_insert H P lib2
      { self with string_to_write := body, topic_name_buffer := topic } r2).1 ∧
    second.2.calls = (_insert H P lib2
      { self with string_to_write := body, topic_name_buffer := topic } r2).2.calls ∧
    second.2.ret = (_insert H P lib2
      { self with string_to_write := body, topic_name_buffer := topic } r2).2.ret := by
  intro H first second
  have h2 : second.2 = (_insert H P lib2
      { self with string_to_write := body, topic_name_buffer := topic } r2).2 := by
    simp only [second, first]
    rw [insert_run_eq, insert_run_eq, insert_worker_eq, mqtt_send_unfold, mqtt_send_unfold,
      resolve_topic_eq, resolve_topic_eq]
    rfl
  refine ⟨?_, ?_, ?_, ?_, ?_, ?_, ?_⟩
  · simp only [first]
    rw [insert_worker_eq]
    rfl
  · simp only [first]
    rw [insert_worker_eq]
    rfl
  · simp only [second, first]
    rw [insert_worker_eq, insert_worker_eq]
    rfl
  · simp only [second, first]
    rw [insert_worker_eq, insert_worker_eq]
    rfl
  · simp only [second, first]
    rw [insert_worker_eq, insert_worker_eq, insert_worker_eq]
    rfl
  · rw [h2]
  · rw [h2]

/-! ## TLS options and connect -/

/-- C9 as stated fails: the two verification toggles are not independent settings;
no configuration yields `enableServerCertAuth = 1` together with `verify = 0`. -/
theorem ssl_verification_toggles_not_independent :
    ¬ ∃ (P : Paho Unit) (self : MQTTDestinationWorker Nat Unit),
        (_create_ssl_options P self).enableServerCertAuth = 1 ∧
        (_create_ssl_options P self).verify = 0 := by
  rintro ⟨P, self, h1, h0⟩
  have ha : (_create_ssl_options P self).enableServerCertAuth = self.owner.peer_verify := rfl
  have hv : (_create_ssl_options P self).verify = self.owner.peer_verify := rfl
  rw [ha] at h1
  rw [hv, h1] at h0
  exact absurd h0 (by decide)

/-- C9 (amended): the TLS options are a function of the driver configuration (and,
for the error-callback context only, of the worker's address): trust store =
`ca_file`, CA path = `ca_dir`, key store = `cert_file`, private key = `key_file`,
cipher suites = `ciphers`, protocol version = `ssl_version`; both verification
toggles are copies of the single `peer_verify` setting, hence always equal; and
`disableDefaultTrustStore` is the logical negation of `use_system_cert_store`. -/
theorem create_ssl_options_fields (P : Paho σ)
    (self : MQTTDestinationWorker LogTemplate LogTemplateOptions)
    (addr client : Nat) (seq_num : Int) (body topic : GString) :
    (_create_ssl_options P self).trustStore = self.owner.ca_file ∧
    (_create_ssl_options P self).CApath = self.owner.ca_dir ∧
    (_create_ssl_options P self).keyStore = self.owner.cert_file ∧
    (_create_ssl_options P self).privateKey = self.owner.key_file ∧
    (_create_ssl_options P self).enabledCipherSuites = self.owner.ciphers ∧
    (_create_ssl_options P self).sslVersion = self.owner.ssl_version ∧
    (_create_ssl_options P self).enableServerCertAuth = self.owner.peer_verify ∧
    (_create_ssl_options P self).verify = self.owner.peer_verify ∧
    (_create_ssl_options P self).enableServerCertAuth = (_create_ssl_options P self).verify ∧
    (_create_ssl_options P self).disableDefaultTrustStore =
      lnot self.owner.use_system_cert_store ∧
    ((_create_ssl_options P self).disableDefaultTrustStore ≠ 0 ↔
      ¬ (self.owner.use_system_cert_store ≠ 0)) ∧
    ((_create_ssl_options P self).disableDefaultTrustStore = 0 ∨
      (_create_ssl_options P self).disableDefaultTrustStore = 1) ∧
    (_create_ssl_options P self).ssl_error_cb = some SslErrorCallback._log_ssl_errors ∧
    (_create_ssl_options P self).ssl_error_context = some self.addr ∧
    (_create_ssl_options P self).privateKeyPassword =
      P.MQTTClient_SSLOptions_initializer.privateKeyPassword ∧
    _create_ssl_options P
        ({ addr := addr, owner := self.owner, seq_num := seq_num, client := client,
           string_to_write := body, topic_name_buffer := topic } :
          MQTTDestinationWorker LogTemplate LogTemplateOptions) =
      { _create_ssl_options P self with ssl_error_context := some addr } := by
  refine ⟨rfl, rfl, rfl, rfl, rfl, rfl, rfl, rfl, rfl, rfl, ?_, ?_, rfl, rfl, rfl, rfl⟩
  · show lnot self.owner.use_system_cert_store ≠ 0 ↔ ¬ (self.owner.use_system_cert_store ≠ 0)
    unfold lnot
    split <;> simp_all
  · show lnot self.owner.use_system_cert_store = 0 ∨ lnot self.owner.use_system_cert_store = 1
    unfold lnot
    split <;> simp

/-- The single library call of `_connect` and its return value. -/
theorem connect_unfold (have_paho_http_proxy : Bool) (P : Paho σ) (lib : σ)
    (self : MQTTDestinationWorker LogTemplate LogTemplateOptions) :
    _connect have_paho_http_proxy P lib self =
      ⟨(P.MQTTClient_connect lib self.client (connect_options have_paho_http_proxy P self)).1,
        [PahoCall.connect self.client (connect_options have_paho_http_proxy P self)],
        if (P.MQTTClient_connect lib self.client
            (connect_options have_paho_http_proxy P self)).2 = MQTTCLIENT_SUCCESS
        then TRUE else FALSE⟩ := by
  have key : ∀ options : MQTTClient_connectOptions,
      (if (P.MQTTClient_connect lib self.client options).2 ≠ MQTTCLIENT_SUCCESS then
        (⟨(P.MQTTClient_connect lib self.client options).1,
          [PahoCall.connect self.client options], FALSE⟩ : Run σ Int)
      else
        ⟨(P.MQTTClient_connect lib self.client options).1,
          [PahoCall.connect self.client options], TRUE⟩) =
      ⟨(P.MQTTClient_connect lib self.client options).1,
        [PahoCall.connect self.client options],
        if (P.MQTTClient_connect lib self.client options).2 = MQTTCLIENT_SUCCESS
        then TRUE else FALSE⟩ := by
    intro options
    by_cases h : (P.MQTTClient_connect lib self.client options).2 = MQTTCLIENT_SUCCESS
    · rw [if_neg (not_not.mpr h), if_pos h]
    · rw [if_pos h, if_neg h]
  exact key (connect_options have_paho_http_proxy P self)

/-- The fields of the connect options that do not depend on the proxy. -/
theorem connect_options_fields (have_paho_http_proxy : Bool) (P : Paho σ)
    (self : MQTTDestinationWorker LogTemplate LogTemplateOptions) :
    (connect_options have_paho_http_proxy P self).cleansession = 0 ∧
    (connect_options have_paho_http_proxy P self).keepAliveInterval = self.owner.keepalive ∧
    (connect_options have_paho_http_proxy P self).username = self.owner.username ∧
    (connect_options have_paho_http_proxy P self).password = self.owner.password ∧
    (connect_options have_paho_http_proxy P self).ssl = some (_create_ssl_options P self) := by
  refine ⟨?_, ?_, ?_, ?_, ?_⟩ <;>
    (unfold connect_options
     first
     | rfl
     | (dsimp only []
        split <;> rfl))

/-- C10: a `_connect` call makes exactly one library call, a connect whose options
carry `cleansession = 0`, the configured keep-alive interval, username and password
and the freshly built TLS options; it returns `TRUE` if and only if that call
returned the success code, and `FALSE` for every other code. -/
theorem connect_once (have_paho_http_proxy : Bool) (P : Paho σ) (lib : σ)
    (self : MQTTDestinationWorker LogTemplate LogTemplateOptions) :
    ∃ options,
      (_connect have_paho_http_proxy P lib self).calls =
        [PahoCall.connect self.client options] ∧
      options.cleansession = 0 ∧
      options.keepAliveInterval = self.owner.keepalive ∧
      options.username = self.owner.username ∧
      options.password = self.owner.password ∧
      options.ssl = some (_create_ssl_options P self) ∧
      (_connect have_paho_http_proxy P lib self).lib =
        (P.MQTTClient_connect lib self.client options).1 ∧
      ((_connect have_paho_http_proxy P lib self).ret = TRUE ↔
        (P.MQTTClient_connect lib self.client options).2 = MQTTCLIENT_SUCCESS) ∧
      ((P.MQTTClient_connect lib self.client options).2 ≠ MQTTCLIENT_SUCCESS →
        (_connect have_paho_http_proxy P lib self).ret = FALSE) := by
  obtain ⟨h1, h2, h3, h4, h5⟩ := connect_options_fields have_paho_http_proxy P self
  refine ⟨connect_options have_paho_http_proxy P self, ?_, h1, h2, h3, h4, h5, ?_, ?_, ?_⟩
  · rw [connect_unfold]
  · rw [connect_unfold]
  · rw [connect_unfold]
    simp only []
    split
    · rename_i h
      exact ⟨fun _ => h, fun _ => rfl⟩
    · rename_i h
      exact ⟨fun hft => absurd hft (by decide), fun hs => absurd hs h⟩
  · intro h
    rw [connect_unfold]
    simp only []
    rw [if_neg h]

/-- Witness of C10: a connect answered with the failure code -1 returns `FALSE`, and
it is the only library call. -/
theorem connect_once_witness :
    (_connect true (scripted 0 5 0 (-1)) () (example_worker [] [])).ret = FALSE ∧
    (_connect true (scripted 0 5 0 (-1)) () (example_worker [] [])).calls.length = 1 := by
  obtain ⟨options, hcalls, _, _, _, _, _, _, _, hfalse⟩ :=
    connect_once true (scripted 0 5 0 (-1)) () (example_worker [] [])
  exact ⟨hfalse (fun h => (by decide : (-1 : Int) ≠ 0) h), by rw [hcalls]; rfl⟩

end Statements

end MqttWorker
